import Mathlib

/-!
Shallow embedding of the AI engine of `src/src/services/aiService.ts`
(demand forecasting, stock optimization, anomaly detection).

Conventions of the embedding:

* JS `number` values are modelled as `ℚ`.  The IEEE special values `NaN`
  and `±Infinity` never arise on the guarded paths of the code; where an
  expression of the source can produce them (the unguarded
  `Math.max(0.3, 1 - stdDev/mean)` of the statistical forecaster, and
  `Math.sqrt` of a negative EOQ argument), the embedding uses `Option ℚ`
  (`none` models a non-numeric value) with the IEEE case analysis spelled
  out at the definition.
* Calendar dates are modelled as integer day numbers (the source works at
  calendar-day granularity through `toISOString().split('T')[0]`).  The
  calendar-derived features (day of week, day of month, month) are an
  abstract `Calendar` parameter; no claim depends on their concrete values.
* `Math.round x` is `⌊x + 1/2⌋` (the JS semantics, also for negatives).
* `ss.mean` / `ss.standardDeviation` of `simple-statistics` are the sum
  divided by the length and the square root of the population variance.
  Square roots are modelled by `ratSqrt`, which is exact on every rational
  that is the square of a rational (all inputs at which a claim depends on
  the value of a square root) and is nonnegative everywhere, like IEEE
  `Math.sqrt` on nonnegative arguments.
* The persistence layer is a value `Env`: a product list, a stock-movement
  list and a per-category model map.  The trained TensorFlow model of the
  neural path is an oracle `List ℚ → ℚ` (its pointwise prediction
  function); no claim depends on the numeric values it returns.  The cache
  collaborator is elided: the spec states caching is an optimization, not
  part of the correctness contract.
-/

/-- JS `Math.round`: round half up, `Math.round x = ⌊x + 1/2⌋`. -/
def jsRound (q : ℚ) : ℤ := ⌊q + 1/2⌋

/-- The source's two-decimal rounding `Math.round(x * 100) / 100`. -/
def round2 (q : ℚ) : ℚ := (jsRound (q * 100) : ℚ) / 100

/-- Newton iteration for the integer square root.  The guess strictly
decreases on every recursive call, so a fuel equal to the initial guess
suffices; the recursion is structural in the fuel so that concrete
evaluations reduce inside the kernel. -/
def natSqrtIter (n : ℕ) : ℕ → ℕ → ℕ
  | guess, 0 => guess
  | guess, fuel + 1 =>
    let next := (guess + n / guess) / 2
    if next < guess then natSqrtIter n next fuel else guess

/-- Integer square root (floor) via Newton's method, kernel-reducible. -/
def natSqrt (n : ℕ) : ℕ := if n ≤ 1 then n else natSqrtIter n (n / 2) (n / 2)

/-- Rational stand-in for IEEE `Math.sqrt`.  Exact whenever the argument is
the square of a rational (in lowest terms both numerator and denominator
are then perfect squares); nonnegative for every argument, as IEEE sqrt is
on nonnegative arguments.  The claims below depend on the value of a square
root only at perfect squares, and elsewhere only on its sign. -/
def ratSqrt (q : ℚ) : ℚ := (natSqrt q.num.toNat : ℚ) / (natSqrt q.den : ℚ)

/-- `ss.mean` of simple-statistics: sum over length.  (The JS library
throws on an empty list; the claims only evaluate it on nonempty ones.) -/
def ssMean (l : List ℚ) : ℚ := l.sum / (l.length : ℚ)

/-- `ss.variance` of simple-statistics: population variance, the mean of
the squared deviations from the mean. -/
def ssVariance (l : List ℚ) : ℚ :=
  ((l.map (fun x => (x - ssMean l) ^ 2)).sum) / (l.length : ℚ)

/-- `ss.standardDeviation`: square root of the population variance. -/
def ssStandardDeviation (l : List ℚ) : ℚ := ratSqrt (ssVariance l)

/-- Calendar-feature abstraction: `getDay`, `getDate`, `getMonth` of a JS
`Date`, as functions of the integer day number. -/
structure Calendar where
  dayOfWeek : ℤ → ℤ
  dayOfMonth : ℤ → ℤ
  month : ℤ → ℤ

/-- One entry of the gap-filled daily demand series built by
`getHistoricalDemandData` (lines 142-182 of aiService.ts). -/
structure DemandObservation where
  date : ℤ
  demand : ℚ
  dayOfWeek : ℤ
  dayOfMonth : ℤ
  month : ℤ
  isWeekend : Bool
deriving DecidableEq, Repr

/-- Placeholder observation used only as the default of `List.getD`; every
indexed access of the source is in range. -/
def obsDefault : DemandObservation :=
  { date := 0, demand := 0, dayOfWeek := 0, dayOfMonth := 0, month := 0, isWeekend := false }

/-- A row of the `stock_movements` table, at the granularity the engine
reads it: product, movement type, calendar day, signed quantity. -/
structure StockMovement where
  productId : String
  movementType : String
  day : ℤ
  quantity : ℤ
deriving DecidableEq, Repr

/-- A row of the `products` table, restricted to the fields the engine
reads (`unitPrice` is `Decimal?` in the Prisma schema, hence `Option ℚ`). -/
structure Product where
  id : String
  currentStock : ℤ
  unitPrice : Option ℚ
  categoryId : String
deriving DecidableEq, Repr

/-- One prediction point of a `ForecastResult`.  `confidence` is
`Option ℚ`: `none` models the IEEE `NaN` the statistical path can
produce (see `statConfidence`). -/
structure ForecastPoint where
  date : ℤ
  predictedDemand : ℤ
  confidence : Option ℚ
  upperBound : ℤ
  lowerBound : ℤ
deriving DecidableEq, Repr

/-- Placeholder point used only as the default of `List.getD`. -/
def pointDefault : ForecastPoint :=
  { date := 0, predictedDemand := 0, confidence := none, upperBound := 0, lowerBound := 0 }

/-- The `ForecastResult` interface (lines 10-21). -/
structure ForecastResult where
  productId : String
  predictions : List ForecastPoint
  accuracy : Option ℚ
  modelType : String
deriving DecidableEq, Repr

/-- The `'LOW' | 'MEDIUM' | 'HIGH'` union used for risk levels. -/
inductive RiskLevel where
  | LOW
  | MEDIUM
  | HIGH
deriving DecidableEq, Repr

/-- The `'LOW' | 'MEDIUM' | 'HIGH'` union used for anomaly severity. -/
inductive Severity where
  | LOW
  | MEDIUM
  | HIGH
deriving DecidableEq, Repr

/-- The `OptimizationResult` interface (lines 23-30). -/
structure OptimizationResult where
  productId : String
  currentStock : ℤ
  optimalStock : ℤ
  reorderPoint : ℤ
  expectedSavings : ℚ
  riskLevel : RiskLevel
deriving DecidableEq, Repr

/-- One anomaly entry of the `AnomalyDetection` interface (lines 32-41). -/
structure AnomalyRecord where
  date : ℤ
  actualDemand : ℚ
  expectedDemand : ℤ
  anomalyScore : ℚ
  severity : Severity
deriving DecidableEq, Repr

/-- The `AnomalyDetection` interface (lines 32-41). -/
structure AnomalyDetection where
  productId : String
  anomalies : List AnomalyRecord
deriving DecidableEq, Repr

/-- The persistence collaborators, as a value: `prisma.product`,
`prisma.stockMovement`, and the per-category model map `this.models`
(each model denoted by its pointwise prediction function). -/
structure Env where
  products : List Product
  movements : List StockMovement
  models : String → Option (List ℚ → ℚ)

/-- `prisma.product.findUnique({ where: { id } })`. -/
def findProduct (env : Env) (productId : String) : Option Product :=
  env.products.find? (fun p => decide (p.id = productId))

/-- `Map.set` of the JS `dailyDemand` map: replace the value of an existing
key in place, otherwise append the new entry (JS `Map` keeps the original
insertion position on overwrite). -/
def alUpdate (acc : List (ℤ × ℚ)) (k : ℤ) (v : ℚ) : List (ℤ × ℚ) :=
  match acc with
  | [] => [(k, v)]
  | (k0, v0) :: rest => if k0 = k then (k0, v) :: rest else (k0, v0) :: alUpdate rest k v

/-- `Map.get` of the JS `dailyDemand` map. -/
def alLookup (acc : List (ℤ × ℚ)) (k : ℤ) : Option ℚ :=
  match acc with
  | [] => none
  | (k0, v0) :: rest => if k0 = k then some v0 else alLookup rest k

/-- The grouping loop of `getHistoricalDemandData` (lines 156-162): for
each movement, add `Math.abs(quantity)` to the running total of its
calendar day (`dailyDemand.get(date) || 0` reads 0 for an absent day). -/
def dailyDemandMap (movements : List StockMovement) : List (ℤ × ℚ) :=
  movements.foldl
    (fun acc m =>
      let current := (alLookup acc m.day).getD 0
      alUpdate acc m.day (current + ((|m.quantity| : ℤ) : ℚ)))
    []

/-- `getHistoricalDemandData` (lines 142-182): pull the outbound movements
of the product dated within the window, group their absolute quantities by
calendar day, then emit one observation per day of the window — the loop
runs `i = days-1` down to `0` and fills absent days with demand 0. -/
def getHistoricalDemandData (cal : Calendar) (movements : List StockMovement)
    (productId : String) (today : ℤ) (days : ℕ) : List DemandObservation :=
  let startDay : ℤ := today - days
  let outs := movements.filter (fun m =>
    decide (m.productId = productId) && decide (m.movementType = "OUT")
      && decide (startDay ≤ m.day))
  let daily := dailyDemandMap outs
  (List.range days).map (fun (j : ℕ) =>
    let date : ℤ := today - ((days : ℤ) - 1 - (j : ℤ))
    { date := date
      demand := (alLookup daily date).getD 0
      dayOfWeek := cal.dayOfWeek date
      dayOfMonth := cal.dayOfMonth date
      month := cal.month date
      isWeekend := decide (cal.dayOfWeek date = 0) || decide (cal.dayOfWeek date = 6) })

/-- `calculateTrend` (lines 350-356): ordinary-least-squares slope of the
demands against their index, as computed by `SimpleLinearRegression` of
ml-regression; 0 when fewer than two observations. -/
def calculateTrend (demands : List ℚ) : ℚ :=
  if demands.length < 2 then 0
  else
    let n : ℚ := (demands.length : ℚ)
    let xs : List ℚ := (List.range demands.length).map (fun (i : ℕ) => (i : ℚ))
    let sumX := xs.sum
    let sumY := demands.sum
    let sumXY := ((xs.zip demands).map (fun p => p.1 * p.2)).sum
    let sumXX := (xs.map (fun x => x * x)).sum
    (n * sumXY - sumX * sumY) / (n * sumXX - sumX * sumX)

/-- `getSeasonalFactor` (lines 358-374): ratio of the mean demand on the
future day's day-of-week to the overall mean, defaulting to 1 when no
historical observation shares that day-of-week or the overall mean is 0.
The future day is `today + dayOffset` (the source passes the 0-indexed
horizon offset `i` here, one day before the date of prediction `i`). -/
def getSeasonalFactor (cal : Calendar) (today : ℤ) (dayOffset : ℕ)
    (historicalData : List DemandObservation) : ℚ :=
  let dow := cal.dayOfWeek (today + dayOffset)
  let sameDayDemands :=
    (historicalData.filter (fun d => decide (cal.dayOfWeek d.date = dow))).map (fun d => d.demand)
  if sameDayDemands = [] then 1
  else
    let avgSameDayDemand := ssMean sameDayDemands
    let overallAverage := ssMean (historicalData.map (fun d => d.demand))
    if overallAverage = 0 then 1 else avgSameDayDemand / overallAverage

/-- The JS expression `Math.max(0.3, 1 - stdDev / mean)` of line 209 under
IEEE semantics.  `stdDev` is a standard deviation, hence nonnegative, on
every call path.  With `mean = 0` and `stdDev = 0` the source computes
`0/0 = NaN` and `Math.max(0.3, NaN) = NaN`, modelled as `none`; with
`mean = 0` and `stdDev > 0` it computes `1 - Infinity = -Infinity` and
`Math.max(0.3, -Infinity) = 0.3`. -/
def statConfidence (mean stdDev : ℚ) : Option ℚ :=
  if mean = 0 then
    if stdDev = 0 then none else some (3/10)
  else some (max (3/10) (1 - stdDev / mean))

/-- `generateStatisticalForecast` (lines 184-230).  The per-point
`confidence` of line 209 is loop-invariant and is hoisted here; line 227
(`accuracy: confidence`) reads that same loop-local binding from outside
the loop body, which denotes the identical value (under `var` hoisting it
is the last — constant — iteration value; the claims below only use
horizons of at least one day). -/
def generateStatisticalForecast (cal : Calendar) (today : ℤ) (productId : String)
    (historicalData : List DemandObservation) (days : ℕ) : ForecastResult :=
  let demands := historicalData.map (fun d => d.demand)
  let mean := ssMean demands
  let stdDev := ssStandardDeviation demands
  let trend := calculateTrend demands
  let windowSize := min 7 demands.length
  let recentAverage := ssMean (demands.drop (demands.length - windowSize))
  let confidence := statConfidence mean stdDev
  let predictions := (List.range days).map (fun (i : ℕ) =>
    let trendAdjustment := trend * ((i : ℚ) + 1)
    let seasonalFactor := getSeasonalFactor cal today i historicalData
    let predictedDemand := max 0 (jsRound ((recentAverage + trendAdjustment) * seasonalFactor))
    let margin := stdDev * (196/100)
    { date := today + i + 1
      predictedDemand := predictedDemand
      confidence := confidence.map round2
      upperBound := jsRound ((predictedDemand : ℚ) + margin)
      lowerBound := max 0 (jsRound ((predictedDemand : ℚ) - margin)) })
  { productId := productId
    predictions := predictions
    accuracy := confidence
    modelType := "STATISTICAL" }

/-- The feature vector pushed for window index `i` in
`prepareTrainingData` (lines 310-323): the seven lagged demands
`historicalData[i-7] .. historicalData[i-1]` followed by the day-of-week,
day-of-month and month features stored on `historicalData[i]`. -/
def featuresAt (historicalData : List DemandObservation) (i : ℕ) : List ℚ :=
  ((List.range 7).map (fun k => (historicalData.getD (i - 7 + k) obsDefault).demand)) ++
    [((historicalData.getD i obsDefault).dayOfWeek : ℚ),
     ((historicalData.getD i obsDefault).dayOfMonth : ℚ),
     ((historicalData.getD i obsDefault).month : ℚ)]

/-- `prepareTrainingData` (lines 305-328): one (features, label) pair per
window index `i = 10 .. length-1`, the label being the demand at `i`. -/
def prepareTrainingData (historicalData : List DemandObservation) :
    List (List ℚ) × List ℚ :=
  let idxs := (List.range (historicalData.length - 10)).map (fun k => k + 10)
  (idxs.map (fun i => featuresAt historicalData i),
   idxs.map (fun i => (historicalData.getD i obsDefault).demand))

/-- `updateFeatures` (lines 330-348) on the length-10 feature vectors of
every call path: shift out the oldest of the seven lags, append the new
demand, and recompute the three date features for `today + dayOffset`. -/
def updateFeatures (cal : Calendar) (today : ℤ) (features : List ℚ)
    (newDemand : ℤ) (dayOffset : ℕ) : List ℚ :=
  let futureDay : ℤ := today + dayOffset
  ((features.take 7).drop 1) ++
    [(newDemand : ℚ), (cal.dayOfWeek futureDay : ℚ),
     (cal.dayOfMonth futureDay : ℚ), (cal.month futureDay : ℚ)]

/-- `calculatePredictionConfidence` (lines 376-386): confidence decreases
with the deviation of the prediction from the historical mean, normalized
by the historical standard deviation (0 when that deviation is 0), and is
clamped to `[0.3, 0.95]`.  Note the source applies no `min(1, ·)` cap to
the normalized deviation. -/
def calculatePredictionConfidence (prediction : ℚ)
    (historicalData : List DemandObservation) : ℚ :=
  let demands := historicalData.map (fun d => d.demand)
  let mean := ssMean demands
  let stdDev := ssStandardDeviation demands
  let deviation := |prediction - mean|
  let normalizedDeviation := if stdDev = 0 then 0 else deviation / stdDev
  max (3/10) (min (19/20) (1 - normalizedDeviation * (1/10)))

/-- `calculateModelAccuracy` (lines 388-415): mean absolute percentage
error of the trained model against its own training set, over the rows
with a nonzero label, converted to `max(0, 1 - MAPE)`; `0.5` when the
training set is empty. -/
def calculateModelAccuracy (predict : List ℚ → ℚ) (inputs : List (List ℚ))
    (outputs : List ℚ) : ℚ :=
  if inputs.length = 0 then 1/2
  else
    let predictionData := inputs.map predict
    let valid := (outputs.zip predictionData).filter (fun p => decide (p.1 ≠ 0))
    let totalError := (valid.map (fun p => |(p.1 - p.2) / p.1|)).sum
    let mape := if 0 < valid.length then totalError / (valid.length : ℚ) else 1
    max 0 (1 - mape)

/-- The roll-forward prediction loop of `generateNeuralNetworkForecast`
(lines 262-289): predict one day from the current feature vector, clamp to
0, attach confidence and a 20% margin, then shift the feature window and
repeat.  `i` is the 0-indexed horizon offset, the third argument the
remaining number of days. -/
def neuralRollForward (cal : Calendar) (today : ℤ) (predict : List ℚ → ℚ)
    (historicalData : List DemandObservation) :
    List ℚ → ℕ → ℕ → List ForecastPoint
  | _, _, 0 => []
  | features, i, Nat.succ k =>
    let predictedDemand := max 0 (jsRound (predict features))
    let confidence := calculatePredictionConfidence (predictedDemand : ℚ) historicalData
    let margin := (predictedDemand : ℚ) * (1/5)
    let point : ForecastPoint :=
      { date := today + i + 1
        predictedDemand := predictedDemand
        confidence := some confidence
        upperBound := jsRound ((predictedDemand : ℚ) + margin)
        lowerBound := max 0 (jsRound ((predictedDemand : ℚ) - margin)) }
    point :: neuralRollForward cal today predict historicalData
      (updateFeatures cal today features predictedDemand (i + 1)) (i + 1) k

/-- `generateNeuralNetworkForecast` (lines 232-303).  Throws when the
category has no model; falls back to the statistical forecaster on fewer
than 10 training windows; otherwise trains the category model in place and
rolls predictions forward from the last feature vector.  `model` is the
trained model's pointwise prediction function (`model.fit` mutates native
state whose numeric effect the oracle already denotes; no claim depends on
the predicted values). -/
def generateNeuralNetworkForecast (cal : Calendar) (today : ℤ)
    (model : Option (List ℚ → ℚ)) (product : Product)
    (historicalData : List DemandObservation) (days : ℕ) :
    Except String ForecastResult :=
  match model with
  | none => .error "Model not found for category"
  | some predict =>
    let td := prepareTrainingData historicalData
    if td.1.length < 10 then
      .ok (generateStatisticalForecast cal today product.id historicalData days)
    else
      let lastFeatures := td.1.getD (td.1.length - 1) []
      .ok { productId := product.id
            predictions := neuralRollForward cal today predict historicalData lastFeatures 0 days
            accuracy := some (calculateModelAccuracy predict td.1 td.2)
            modelType := "NEURAL_NETWORK" }

/-- The branch of `generateDemandForecast` after the series is built
(lines 128-139): the statistical forecaster when the series has fewer than
30 observations, the neural forecaster otherwise. -/
def forecastFromSeries (cal : Calendar) (today : ℤ)
    (models : String → Option (List ℚ → ℚ)) (product : Product)
    (historicalData : List DemandObservation) (days : ℕ) :
    Except String ForecastResult :=
  if historicalData.length < 30 then
    .ok (generateStatisticalForecast cal today product.id historicalData days)
  else
    generateNeuralNetworkForecast cal today (models product.categoryId) product historicalData days

/-- `generateDemandForecast` (lines 108-140): resolve the product (throw
`'Product not found'` otherwise), build the 180-day series, and dispatch
on data sufficiency.  The cache get/set of lines 109-114 and 137 is
elided: per the spec, caching is an optimization, not part of the
correctness contract. -/
def generateDemandForecast (cal : Calendar) (today : ℤ) (env : Env)
    (productId : String) (days : ℕ) : Except String ForecastResult :=
  match findProduct env productId with
  | none => .error "Product not found"
  | some product =>
    forecastFromSeries cal today env.models product
      (getHistoricalDemandData cal env.movements productId today 180) days

/-- The `avgDailyDemand` of `optimizeStockLevels` (line 430): the
predictions' demands summed and divided by the literal 30. -/
def avgDailyDemand (predictions : List ForecastPoint) : ℚ :=
  ((predictions.map (fun p => (p.predictedDemand : ℚ))).sum) / 30

/-- `calculateDemandVariability` (lines 470-473): standard deviation of
the predicted demands. -/
def calculateDemandVariability (predictions : List ForecastPoint) : ℚ :=
  ssStandardDeviation (predictions.map (fun p => (p.predictedDemand : ℚ)))

/-- `calculateStockoutRisk` (lines 475-483): 0 when the average demand is
0 (the guarded edge case), otherwise `(7 - daysOfStock) * riskFactor / 7`
clamped to `[0, 1]`. -/
def calculateStockoutRisk (currentStock : ℤ) (avgDemand : ℚ) (variability : ℚ) : ℚ :=
  if avgDemand = 0 then 0
  else
    let daysOfStock := (currentStock : ℚ) / avgDemand
    let riskFactor := variability / avgDemand
    max 0 (min 1 ((7 - daysOfStock) * riskFactor / 7))

/-- The EOQ/safety-stock computation of `optimizeStockLevels` (lines
429-467), from the product row and the 30-day forecast predictions.
`none` models a NaN result: `Math.sqrt` of a negative EOQ argument (only
reachable with a negative unit price).  The JS truthiness test
`product.unitPrice ? ... : 10` makes both a missing and a zero price fall
back to the default holding cost, so the EOQ division is never by zero. -/
def optimizeStockLevels (product : Product) (predictions : List ForecastPoint) :
    Option OptimizationResult :=
  let avg := avgDailyDemand predictions
  let annualDemand := avg * 365
  let orderingCost : ℚ := 50
  let holdingCostRate : ℚ := 1/4
  let holdingCost : ℚ :=
    match product.unitPrice with
    | some p => if p = 0 then 10 else p * holdingCostRate
    | none => 10
  let eoqArg := 2 * annualDemand * orderingCost / holdingCost
  if eoqArg < 0 then none
  else
    let eoq := ratSqrt eoqArg
    let demandVariability := calculateDemandVariability predictions
    let zScore : ℚ := 1645/1000
    let leadTime : ℚ := 7
    let safetyStock := zScore * ratSqrt leadTime * demandVariability
    let reorderPoint := avg * leadTime + safetyStock
    let optimalStock := eoq + safetyStock
    let currentHoldingCost := (product.currentStock : ℚ) * holdingCost / 365 * 30
    let optimizedHoldingCost := optimalStock * holdingCost / 365 * 30
    let expectedSavings := max 0 (currentHoldingCost - optimizedHoldingCost)
    let stockoutRisk := calculateStockoutRisk product.currentStock avg demandVariability
    let riskLevel :=
      if 1/5 < stockoutRisk then RiskLevel.HIGH
      else if 1/10 < stockoutRisk then RiskLevel.MEDIUM
      else RiskLevel.LOW
    some { productId := product.id
           currentStock := product.currentStock
           optimalStock := jsRound optimalStock
           reorderPoint := jsRound reorderPoint
           expectedSavings := round2 expectedSavings
           riskLevel := riskLevel }

/-- `optimizeStockLevels` as the public operation (lines 417-468): resolve
the product (throw `'Product not found'` otherwise), obtain a 30-day
forecast, then run the EOQ computation. -/
def optimizeStockLevelsOp (cal : Calendar) (today : ℤ) (env : Env)
    (productId : String) : Except String (Option OptimizationResult) :=
  match findProduct env productId with
  | none => .error "Product not found"
  | some product =>
    match generateDemandForecast cal today env productId 30 with
    | .error e => .error e
    | .ok forecast => .ok (optimizeStockLevels product forecast.predictions)

/-- `detectAnomalies` (lines 485-518) from the built series: empty result
below 14 observations; otherwise flag every day from index 7 on whose
rolling z-score (against the mean of the preceding 7 days, normalized by
the global standard deviation, 0 when that deviation is 0) exceeds 2.
(The source also computes the global mean at line 493; it is never read.) -/
def detectAnomaliesFromSeries (productId : String)
    (historicalData : List DemandObservation) : AnomalyDetection :=
  let demands := historicalData.map (fun d => d.demand)
  if demands.length < 14 then { productId := productId, anomalies := [] }
  else
    let stdDev := ssStandardDeviation demands
    let anomalies := ((List.range (historicalData.length - 7)).map (fun k => k + 7)).filterMap
      (fun i =>
        let recentAvg := ssMean ((demands.drop (i - 7)).take 7)
        let currentDemand := demands.getD i 0
        let zScore := if stdDev = 0 then 0 else |currentDemand - recentAvg| / stdDev
        if 2 < zScore then
          some { date := (historicalData.getD i obsDefault).date
                 actualDemand := currentDemand
                 expectedDemand := jsRound recentAvg
                 anomalyScore := round2 zScore
                 severity :=
                   if 3 < zScore then Severity.HIGH
                   else if 5/2 < zScore then Severity.MEDIUM
                   else Severity.LOW }
        else none)
    { productId := productId, anomalies := anomalies }

/-- `detectAnomalies` as the public operation (lines 485-518): build a
90-day series and scan it.  The source performs no product lookup here —
an unknown product yields an all-zero series, never an error. -/
def detectAnomaliesOp (cal : Calendar) (today : ℤ) (env : Env)
    (productId : String) : Except String AnomalyDetection :=
  .ok (detectAnomaliesFromSeries productId
    (getHistoricalDemandData cal env.movements productId today 90))

/-- Transcription of the spec's neural confidence formula (§4.4 item 4):
"confidence per point: 1 − min(1, |prediction − historical mean| /
historical stdDev)·0.1, floored at 0.3 and capped at 0.95", with the
normalized deviation taken as 0 when the standard deviation is 0.  Stated
only to be compared against `calculatePredictionConfidence`. -/
def specNeuralConfidence (prediction : ℚ)
    (historicalData : List DemandObservation) : ℚ :=
  let demands := historicalData.map (fun d => d.demand)
  let mean := ssMean demands
  let stdDev := ssStandardDeviation demands
  let normalizedDeviation := if stdDev = 0 then 0 else |prediction - mean| / stdDev
  max (3/10) (min (19/20) (1 - min 1 normalizedDeviation * (1/10)))

/-! Concrete fixtures used by witnesses and counterexamples. -/

/-- A concrete calendar for concrete evaluations (no claim depends on the
concrete feature values). -/
def cal0 : Calendar :=
  { dayOfWeek := fun d => d % 7, dayOfMonth := fun d => d % 31 + 1, month := fun d => d / 31 % 12 }

/-- An all-zero demand series of 30 observations. -/
def zeros30 : List DemandObservation := List.replicate 30 obsDefault

/-- A two-observation series with demands 1 and 2 (mean 3/2, standard
deviation 1/2, statistical confidence 2/3). -/
def hist3 : List DemandObservation :=
  [{ obsDefault with date := 0, demand := 1 }, { obsDefault with date := 1, demand := 2 }]

/-- A two-observation series with demands 0 and 10 (mean 5, standard
deviation 5). -/
def hist2 : List DemandObservation :=
  [{ obsDefault with date := 0, demand := 0 }, { obsDefault with date := 1, demand := 10 }]

/-- A constant series of 14 observations of demand 5. -/
def const14 : List DemandObservation := List.replicate 14 { obsDefault with demand := 5 }

/-- An environment with no products at all. -/
def envEmpty : Env := { products := [], movements := [], models := fun _ => none }

/-- A concrete product row. -/
def prod1 : Product := { id := "p1", currentStock := 100, unitPrice := some 8, categoryId := "c1" }

/-- A one-observation series (sparse history, statistical branch). -/
def histW : List DemandObservation := [{ obsDefault with date := 0, demand := 4 }]

/-- Concrete movements: two outbound movements of product p1 on day 0 (one
with a negative stored quantity), an inbound movement, and an outbound
movement of another product. -/
def movW : List StockMovement :=
  [⟨"p1", "OUT", 0, -3⟩, ⟨"p1", "OUT", 0, 4⟩, ⟨"p1", "IN", -2, 5⟩, ⟨"p2", "OUT", -1, 2⟩]

/-- An environment holding `prod1`, no movements, and a model for every
category (the oracle predicting 0). -/
def env1 : Env := { products := [prod1], movements := [], models := fun _ => some (fun _ => 0) }

/-- The model map with no model for any category. -/
def noModels : String → Option (List ℚ → ℚ) := fun _ => none

/-- The 30-day statistical forecast over `histW`. -/
def frW : ForecastResult := generateStatisticalForecast cal0 0 prod1.id histW 30

/-- Placeholder optimization result used only as a `getD` default. -/
def optJunk : OptimizationResult :=
  { productId := "", currentStock := 0, optimalStock := 0, reorderPoint := 0,
    expectedSavings := 0, riskLevel := RiskLevel.LOW }

/-- The optimization result over `frW`. -/
def optW : OptimizationResult := (optimizeStockLevels prod1 frW.predictions).getD optJunk

/-- Thirty all-zero forecast points. -/
def predsZ : List ForecastPoint := List.replicate 30 pointDefault

deriving instance DecidableEq for Except

/-! Helper lemmas. -/

theorem ratSqrt_nonneg (q : ℚ) : 0 ≤ ratSqrt q := by
  unfold ratSqrt
  positivity

theorem ssStandardDeviation_nonneg (l : List ℚ) : 0 ≤ ssStandardDeviation l :=
  ratSqrt_nonneg _

theorem jsRound_nonneg {q : ℚ} (h : 0 ≤ q) : 0 ≤ jsRound q := by
  unfold jsRound
  exact Int.le_floor.mpr (by push_cast; linarith)

theorem round2_nonneg {q : ℚ} (h : 0 ≤ q) : 0 ≤ round2 q := by
  unfold round2
  have h2 : (0 : ℤ) ≤ jsRound (q * 100) := jsRound_nonneg (by positivity)
  have h3 : (0 : ℚ) ≤ (jsRound (q * 100) : ℚ) := by exact_mod_cast h2
  positivity

theorem ssMean_const {l : List ℚ} {c : ℚ} (h : ∀ x ∈ l, x = c) (h0 : l ≠ []) :
    ssMean l = c := by
  unfold ssMean
  rw [List.sum_eq_card_nsmul l c h, nsmul_eq_mul]
  have hl : (l.length : ℚ) ≠ 0 :=
    Nat.cast_ne_zero.mpr (List.length_pos.mpr h0).ne'
  field_simp

theorem ssStandardDeviation_const {l : List ℚ} {c : ℚ} (h : ∀ x ∈ l, x = c)
    (h0 : l ≠ []) : ssStandardDeviation l = 0 := by
  unfold ssStandardDeviation ssVariance
  have hz : (l.map (fun x => (x - ssMean l) ^ 2)).sum = 0 := by
    apply List.sum_eq_zero
    intro y hy
    obtain ⟨x, hx, rfl⟩ := List.mem_map.mp hy
    rw [h x hx, ssMean_const h h0]
    ring
  rw [hz, zero_div]
  with_unfolding_all decide

theorem getHistoricalDemandData_length (cal : Calendar) (movements : List StockMovement)
    (productId : String) (today : ℤ) (days : ℕ) :
    (getHistoricalDemandData cal movements productId today days).length = days := by
  simp only [getHistoricalDemandData, List.length_map, List.length_range]

theorem prepareTrainingData_inputs_length (historicalData : List DemandObservation) :
    (prepareTrainingData historicalData).1.length = historicalData.length - 10 := by
  simp [prepareTrainingData]

theorem alLookup_alUpdate (acc : List (ℤ × ℚ)) (k : ℤ) (v : ℚ) (k2 : ℤ) :
    alLookup (alUpdate acc k v) k2 = if k = k2 then some v else alLookup acc k2 := by
  induction acc with
  | nil => simp only [alUpdate, alLookup]
  | cons hd tl ih =>
    obtain ⟨k0, v0⟩ := hd
    by_cases h0 : k0 = k
    · subst h0
      simp only [alUpdate, if_pos rfl, alLookup]
      by_cases h2 : k0 = k2 <;> simp [h2]
    · simp only [alUpdate, if_neg h0, alLookup, ih]
      by_cases h2 : k0 = k2
      · have h4 : ¬ k = k2 := fun h3 => h0 (h2.trans h3.symm)
        simp [h2, h4]
      · by_cases h3 : k = k2 <;> simp [h2, h3]

theorem dailyDemandMap_fold (movements : List StockMovement) (acc : List (ℤ × ℚ)) (d : ℤ) :
    (alLookup (movements.foldl
        (fun acc m =>
          let current := (alLookup acc m.day).getD 0
          alUpdate acc m.day (current + ((|m.quantity| : ℤ) : ℚ))) acc) d).getD 0
      = (alLookup acc d).getD 0
        + ((movements.filter (fun m => decide (m.day = d))).map
            (fun m => ((|m.quantity| : ℤ) : ℚ))).sum := by
  induction movements generalizing acc with
  | nil => simp
  | cons m ms ih =>
    rw [List.foldl_cons, ih]
    by_cases h : m.day = d
    · rw [List.filter_cons_of_pos (by simpa using h)]
      simp [alLookup_alUpdate, h]
      ring
    · rw [List.filter_cons_of_neg (by simpa using h)]
      simp only [alLookup_alUpdate, if_neg h]

theorem dailyDemandMap_lookup (movements : List StockMovement) (d : ℤ) :
    (alLookup (dailyDemandMap movements) d).getD 0
      = ((movements.filter (fun m => decide (m.day = d))).map
          (fun m => ((|m.quantity| : ℤ) : ℚ))).sum := by
  have h := dailyDemandMap_fold movements [] d
  simpa [dailyDemandMap, alLookup] using h

/-- C8: for every product and window length `n`, the series builder
returns exactly `n` observations, the `k`-th dated `today - n + 1 + k`
(hence ascending with no gaps), and each day's quantity is the sum of the
absolute quantities of that product's outbound movements on that day —
days without movements get the empty sum 0. -/
theorem demand_series_contiguous_daily_sums (cal : Calendar)
    (movements : List StockMovement) (productId : String) (today : ℤ) (n : ℕ) :
    (getHistoricalDemandData cal movements productId today n).length = n ∧
    (∀ k : ℕ, k < n →
      ((getHistoricalDemandData cal movements productId today n).getD k obsDefault).date
          = today - n + 1 + k ∧
      ((getHistoricalDemandData cal movements productId today n).getD k obsDefault).demand
          = ((movements.filter (fun m => decide (m.productId = productId)
                && decide (m.movementType = "OUT")
                && decide (m.day = today - n + 1 + k))).map
              (fun m => ((|m.quantity| : ℤ) : ℚ))).sum) := by
  refine ⟨getHistoricalDemandData_length cal movements productId today n, ?_⟩
  intro k hk
  have hD : today - ((n : ℤ) - 1 - (k : ℤ)) = today - n + 1 + k := by ring
  have hget :
      (getHistoricalDemandData cal movements productId today n).getD k obsDefault
        = { date := today - ((n : ℤ) - 1 - (k : ℤ))
            demand := (alLookup
              (dailyDemandMap (movements.filter (fun m =>
                decide (m.productId = productId) && decide (m.movementType = "OUT")
                  && decide (today - (n : ℤ) ≤ m.day))))
              (today - ((n : ℤ) - 1 - (k : ℤ)))).getD 0
            dayOfWeek := cal.dayOfWeek (today - ((n : ℤ) - 1 - (k : ℤ)))
            dayOfMonth := cal.dayOfMonth (today - ((n : ℤ) - 1 - (k : ℤ)))
            month := cal.month (today - ((n : ℤ) - 1 - (k : ℤ)))
            isWeekend := decide (cal.dayOfWeek (today - ((n : ℤ) - 1 - (k : ℤ))) = 0)
              || decide (cal.dayOfWeek (today - ((n : ℤ) - 1 - (k : ℤ))) = 6) } := by
    simp only [getHistoricalDemandData]
    rw [List.getD_eq_getElem?_getD, List.getElem?_map, List.getElem?_range hk]
    rfl
  rw [hget]
  refine ⟨hD, ?_⟩
  rw [dailyDemandMap_lookup, List.filter_filter, hD]
  have hcong : ∀ m ∈ movements,
      (decide (m.day = today - n + 1 + k)
          && (decide (m.productId = productId) && decide (m.movementType = "OUT")
            && decide (today - (n : ℤ) ≤ m.day)))
        = (decide (m.productId = productId) && decide (m.movementType = "OUT")
            && decide (m.day = today - n + 1 + k)) := by
    intro m _
    by_cases h1 : m.productId = productId <;>
      by_cases h2 : m.movementType = "OUT" <;>
      by_cases h3 : m.day = today - n + 1 + k <;>
      simp [h1, h2, h3]
    all_goals omega
  rw [List.filter_congr hcong]

/-- Witness for C8 at a concrete window: the window has 5 entries, and the
day-0 entry sums the two outbound movements of p1 on that day (3 and 4,
the first stored negative) to 7. -/
theorem demand_series_contiguous_daily_sums_witness :
    ((getHistoricalDemandData cal0 movW "p1" 0 5).getD 4 obsDefault).demand
      = ((movW.filter (fun m => decide (m.productId = "p1")
            && decide (m.movementType = "OUT")
            && decide (m.day = (0 : ℤ) - (5 : ℕ) + 1 + (4 : ℕ)))).map
          (fun m => ((|m.quantity| : ℤ) : ℚ))).sum :=
  ((demand_series_contiguous_daily_sums cal0 movW "p1" 0 5).2 4 (by decide)).2

theorem statistical_points_nonneg (cal : Calendar) (today : ℤ) (productId : String)
    (historicalData : List DemandObservation) (days : ℕ) :
    ∀ p ∈ (generateStatisticalForecast cal today productId historicalData days).predictions,
      0 ≤ p.predictedDemand := by
  intro p hp
  simp only [generateStatisticalForecast, List.mem_map] at hp
  obtain ⟨i, hi, rfl⟩ := hp
  exact le_max_left 0 _

theorem neuralRollForward_points_nonneg (cal : Calendar) (today : ℤ)
    (predict : List ℚ → ℚ) (historicalData : List DemandObservation) :
    ∀ (k : ℕ) (features : List ℚ) (i : ℕ),
      ∀ p ∈ neuralRollForward cal today predict historicalData features i k,
        0 ≤ p.predictedDemand := by
  intro k
  induction k with
  | zero => intro features i p hp; simp [neuralRollForward] at hp
  | succ k ih =>
    intro features i p hp
    rw [neuralRollForward] at hp
    rcases List.mem_cons.mp hp with h | h
    · subst h; exact le_max_left 0 _
    · exact ih _ _ p h

theorem forecast_points_nonneg (cal : Calendar) (today : ℤ)
    (models : String → Option (List ℚ → ℚ)) (product : Product)
    (historicalData : List DemandObservation) (days : ℕ) (fr : ForecastResult)
    (hf : forecastFromSeries cal today models product historicalData days = .ok fr) :
    ∀ p ∈ fr.predictions, 0 ≤ p.predictedDemand := by
  simp only [forecastFromSeries] at hf
  split at hf
  · obtain rfl := Except.ok.inj hf
    exact statistical_points_nonneg cal today product.id historicalData days
  · simp only [generateNeuralNetworkForecast] at hf
    split at hf
    · exact absurd hf (by simp)
    · split at hf
      · obtain rfl := Except.ok.inj hf
        exact statistical_points_nonneg cal today product.id historicalData days
      · obtain rfl := Except.ok.inj hf
        exact neuralRollForward_points_nonneg cal today _ historicalData days _ 0

/-- C5: whenever the optimizer returns a (numeric) result for a forecast
the engine produced, its optimal stock, reorder point and expected savings
are all nonnegative. -/
theorem optimizer_outputs_nonneg (cal : Calendar) (today : ℤ)
    (models : String → Option (List ℚ → ℚ)) (product : Product)
    (historicalData : List DemandObservation) (days : ℕ) (fr : ForecastResult)
    (r : OptimizationResult)
    (hf : forecastFromSeries cal today models product historicalData days = .ok fr)
    (ho : optimizeStockLevels product fr.predictions = some r) :
    0 ≤ r.optimalStock ∧ 0 ≤ r.reorderPoint ∧ 0 ≤ r.expectedSavings := by
  have hd := forecast_points_nonneg cal today models product historicalData days fr hf
  have havg : 0 ≤ avgDailyDemand fr.predictions := by
    unfold avgDailyDemand
    apply div_nonneg _ (by norm_num)
    apply List.sum_nonneg
    intro x hx
    obtain ⟨p, hp, rfl⟩ := List.mem_map.mp hx
    exact_mod_cast hd p hp
  have hsafety : 0 ≤ (1645/1000 : ℚ) * ratSqrt 7 * calculateDemandVariability fr.predictions := by
    have h1 : (0 : ℚ) ≤ 1645/1000 := by norm_num
    exact mul_nonneg (mul_nonneg h1 (ratSqrt_nonneg 7)) (ssStandardDeviation_nonneg _)
  simp only [optimizeStockLevels] at ho
  split at ho
  · exact absurd ho (by simp)
  · obtain rfl := Option.some.inj ho
    refine ⟨?_, ?_, ?_⟩
    · exact jsRound_nonneg (add_nonneg (ratSqrt_nonneg _) hsafety)
    · exact jsRound_nonneg (add_nonneg (mul_nonneg havg (by norm_num)) hsafety)
    · exact round2_nonneg (le_max_left 0 _)

set_option maxRecDepth 400000 in
/-- Witness for C5: a sparse one-day history gives a statistical 30-day
forecast for product p1; the optimizer's outputs on it are nonnegative. -/
theorem optimizer_outputs_nonneg_witness :
    0 ≤ optW.optimalStock ∧ 0 ≤ optW.reorderPoint ∧ 0 ≤ optW.expectedSavings := by
  refine optimizer_outputs_nonneg cal0 0 noModels prod1 histW 30 frW optW ?_ ?_
  · with_unfolding_all rfl
  · with_unfolding_all rfl

/-- C1: a returned forecast is on the neural path only when the series has
at least 30 observations and at least 10 training windows; in every other
case the returned result has modelType STATISTICAL. -/
theorem forecast_model_selection (cal : Calendar) (today : ℤ)
    (models : String → Option (List ℚ → ℚ)) (product : Product)
    (historicalData : List DemandObservation) (days : ℕ) (r : ForecastResult)
    (h : forecastFromSeries cal today models product historicalData days = .ok r) :
    (r.modelType = "NEURAL_NETWORK" →
      30 ≤ historicalData.length ∧ 10 ≤ (prepareTrainingData historicalData).1.length) ∧
    (¬(30 ≤ historicalData.length ∧ 10 ≤ (prepareTrainingData historicalData).1.length) →
      r.modelType = "STATISTICAL") := by
  simp only [forecastFromSeries] at h
  split at h
  · obtain rfl := Except.ok.inj h
    constructor
    · intro hNN
      exact absurd hNN (by simp [generateStatisticalForecast])
    · intro _
      rfl
  · rename_i h30
    simp only [generateNeuralNetworkForecast] at h
    split at h
    · exact absurd h (by simp)
    · split at h
      · obtain rfl := Except.ok.inj h
        constructor
        · intro hNN
          exact absurd hNN (by simp [generateStatisticalForecast])
        · intro _
          rfl
      · rename_i h10
        obtain rfl := Except.ok.inj h
        constructor
        · intro _
          exact ⟨Nat.le_of_not_lt h30, Nat.le_of_not_lt h10⟩
        · intro hn
          exact absurd ⟨Nat.le_of_not_lt h30, Nat.le_of_not_lt h10⟩ hn

/-- Witness for C1: a one-observation series takes the statistical branch,
so both parts of the selection property hold at the returned result. -/
theorem forecast_model_selection_witness :
    (frW.modelType = "NEURAL_NETWORK" →
      30 ≤ histW.length ∧ 10 ≤ (prepareTrainingData histW).1.length) ∧
    (¬(30 ≤ histW.length ∧ 10 ≤ (prepareTrainingData histW).1.length) →
      frW.modelType = "STATISTICAL") :=
  forecast_model_selection cal0 0 noModels prod1 histW 30 frW (by with_unfolding_all rfl)

/-- C10: the 180-day series the orchestrator builds always has exactly 180
entries, so a returned forecast is never statistical (the sparse-data
branch and the window fallback are unreachable), and with a model present
for the product's category the operation returns modelType NEURAL_NETWORK. -/
theorem builder_forces_neural_path (cal : Calendar) (today : ℤ) (env : Env)
    (productId : String) (days : ℕ) (product : Product)
    (h : findProduct env productId = some product) :
    (getHistoricalDemandData cal env.movements productId today 180).length = 180 ∧
    (generateDemandForecast cal today env productId days).map (fun r => r.modelType)
        ≠ .ok "STATISTICAL" ∧
    (env.models product.categoryId ≠ none →
      (generateDemandForecast cal today env productId days).map (fun r => r.modelType)
          = .ok "NEURAL_NETWORK") := by
  have hlen := getHistoricalDemandData_length cal env.movements productId today 180
  have hwin : (prepareTrainingData
      (getHistoricalDemandData cal env.movements productId today 180)).1.length = 170 := by
    rw [prepareTrainingData_inputs_length, hlen]
  refine ⟨hlen, ?_, ?_⟩
  · simp only [generateDemandForecast, h, forecastFromSeries, hlen]
    norm_num
    cases hm : env.models product.categoryId with
    | none => simp [generateNeuralNetworkForecast, hm, Except.map]
    | some predict => simp [generateNeuralNetworkForecast, hm, hwin, Except.map]
  · intro hmodel
    simp only [generateDemandForecast, h, forecastFromSeries, hlen]
    norm_num
    cases hm : env.models product.categoryId with
    | none => exact absurd hm hmodel
    | some predict => simp [generateNeuralNetworkForecast, hm, hwin, Except.map]

/-- Witness for C10: in an environment holding product p1 and a model for
every category, the forecast operation returns the neural model type. -/
theorem builder_forces_neural_path_witness :
    (getHistoricalDemandData cal0 env1.movements "p1" 0 180).length = 180 ∧
    (generateDemandForecast cal0 0 env1 "p1" 7).map (fun r => r.modelType)
        ≠ .ok "STATISTICAL" ∧
    (env1.models prod1.categoryId ≠ none →
      (generateDemandForecast cal0 0 env1 "p1" 7).map (fun r => r.modelType)
          = .ok "NEURAL_NETWORK") :=
  builder_forces_neural_path cal0 0 env1 "p1" 7 prod1 (by with_unfolding_all rfl)

set_option maxRecDepth 400000 in
/-- C2 (evaluation at the failing input): on a 30-observation all-zero
series every predicted demand is 0, but every per-point confidence and the
accuracy are NaN (`none`) rather than the 0.3 floor — the source computes
`Math.max(0.3, 1 - 0/0) = NaN`. -/
theorem statistical_allzero_nan_confidence :
    ((generateStatisticalForecast cal0 0 "p1" zeros30 3).predictions.map
        (fun p => (p.predictedDemand, p.confidence)))
      = List.replicate 3 ((0 : ℤ), (none : Option ℚ))
    ∧ (generateStatisticalForecast cal0 0 "p1" zeros30 3).accuracy = none := by
  with_unfolding_all decide

set_option maxRecDepth 400000 in
/-- C3 counterexample: on the two-observation series with demands 1 and 2
the accuracy field is the unrounded confidence 2/3, while each prediction
point carries 0.67; the accuracy therefore differs from the per-point
confidence value. -/
theorem statistical_accuracy_rounding_cex :
    (generateStatisticalForecast cal0 0 "p1" hist3 1).accuracy = some (2/3)
    ∧ ((generateStatisticalForecast cal0 0 "p1" hist3 1).predictions.map
        (fun p => p.confidence)) = [some (67/100)]
    ∧ (generateStatisticalForecast cal0 0 "p1" hist3 1).accuracy
        ≠ ((generateStatisticalForecast cal0 0 "p1" hist3 1).predictions.getD 0
            pointDefault).confidence := by
  with_unfolding_all decide

theorem map_confidence_of_map_range (f : ℕ → ForecastPoint) (c : Option ℚ)
    (hc : ∀ i, (f i).confidence = c) (n : ℕ) :
    (List.map f (List.range n)).map (fun p => p.confidence) = List.replicate n c := by
  rw [List.map_map]
  have hfun : (fun p => p.confidence) ∘ f = fun _ => c := funext fun i => hc i
  rw [hfun, List.map_const', List.length_range]

/-- C3 (amended): the accuracy field equals the unrounded confidence
scalar computed for the series, and every prediction point carries that
same scalar rounded to two decimals. -/
theorem statistical_accuracy_unrounded (cal : Calendar) (today : ℤ)
    (productId : String) (historicalData : List DemandObservation) (days : ℕ)
    (h1 : historicalData ≠ []) (h2 : 0 < days) :
    (generateStatisticalForecast cal today productId historicalData days).accuracy
        = statConfidence (ssMean (historicalData.map (fun d => d.demand)))
            (ssStandardDeviation (historicalData.map (fun d => d.demand)))
    ∧ (generateStatisticalForecast cal today productId historicalData days).predictions.map
          (fun p => p.confidence)
        = List.replicate days
            ((generateStatisticalForecast cal today productId historicalData
                days).accuracy.map round2) := by
  constructor
  · rfl
  · simp only [generateStatisticalForecast]
    apply map_confidence_of_map_range
    intro i
    rfl

/-- Witness for C3's amended statement on the concrete two-observation
series with a two-day horizon. -/
theorem statistical_accuracy_unrounded_witness :
    (generateStatisticalForecast cal0 0 "p1" hist3 2).accuracy
        = statConfidence (ssMean (hist3.map (fun d => d.demand)))
            (ssStandardDeviation (hist3.map (fun d => d.demand)))
    ∧ (generateStatisticalForecast cal0 0 "p1" hist3 2).predictions.map
          (fun p => p.confidence)
        = List.replicate 2
            ((generateStatisticalForecast cal0 0 "p1" hist3 2).accuracy.map round2) :=
  statistical_accuracy_unrounded cal0 0 "p1" hist3 2 (by decide) (by decide)

set_option maxRecDepth 1000000 in
/-- C4 counterexample: with no products at all the identifier "ghost" does
not resolve, yet anomaly detection returns an ok result — the empty
anomaly list over a gap-filled all-zero 90-day series — instead of raising
ProductNotFound. -/
theorem detect_unknown_product_returns_ok_cex :
    findProduct envEmpty "ghost" = none
    ∧ detectAnomaliesOp cal0 0 envEmpty "ghost"
        = .ok { productId := "ghost", anomalies := [] } := by
  with_unfolding_all decide

/-- C4 (amended): an unresolvable product makes the forecast and stock
optimization operations raise the ProductNotFound error, while anomaly
detection performs no product lookup and returns an ok result. -/
theorem product_not_found_raised_forecast_optimize (cal : Calendar) (today : ℤ)
    (env : Env) (productId : String) (days : ℕ)
    (h : findProduct env productId = none) :
    generateDemandForecast cal today env productId days = .error "Product not found"
    ∧ optimizeStockLevelsOp cal today env productId = .error "Product not found"
    ∧ (detectAnomaliesOp cal today env productId).isOk = true := by
  refine ⟨?_, ?_, rfl⟩
  · simp [generateDemandForecast, h]
  · simp [optimizeStockLevelsOp, h]

/-- Witness for C4's amended statement in the empty environment. -/
theorem product_not_found_raised_witness :
    generateDemandForecast cal0 0 envEmpty "ghost" 30 = .error "Product not found"
    ∧ optimizeStockLevelsOp cal0 0 envEmpty "ghost" = .error "Product not found"
    ∧ (detectAnomaliesOp cal0 0 envEmpty "ghost").isOk = true :=
  product_not_found_raised_forecast_optimize cal0 0 envEmpty "ghost" 30 rfl

/-- C6 counterexample: for prediction 50 over the series with demands 0
and 10 (mean 5, standard deviation 5, normalized deviation 9) the source
computes confidence 0.3, while the spec formula with its min(1, ·) cap
yields 0.9. -/
theorem neural_confidence_spec_mismatch_cex :
    calculatePredictionConfidence 50 hist2 = 3/10
    ∧ specNeuralConfidence 50 hist2 = 9/10
    ∧ calculatePredictionConfidence 50 hist2 ≠ specNeuralConfidence 50 hist2 := by
  with_unfolding_all decide

/-- C6 (amended): the per-point neural confidence is
`1 - normalizedDeviation * 0.1` clamped to [0.3, 0.95], with no min(1, ·)
cap on the normalized deviation `|prediction - mean| / stdDev`; the
normalized deviation is taken as 0 when the standard deviation is 0, in
which case the confidence is exactly 0.95. -/
theorem neural_confidence_clamped_formula (prediction : ℚ)
    (historicalData : List DemandObservation) (h : historicalData ≠ []) :
    (3/10 ≤ calculatePredictionConfidence prediction historicalData
      ∧ calculatePredictionConfidence prediction historicalData ≤ 19/20)
    ∧ (ssStandardDeviation (historicalData.map (fun d => d.demand)) = 0 →
        calculatePredictionConfidence prediction historicalData = 19/20)
    ∧ (ssStandardDeviation (historicalData.map (fun d => d.demand)) ≠ 0 →
        calculatePredictionConfidence prediction historicalData
          = max (3/10) (min (19/20)
              (1 - (|prediction - ssMean (historicalData.map (fun d => d.demand))|
                    / ssStandardDeviation (historicalData.map (fun d => d.demand)))
                  * (1/10)))) := by
  simp only [calculatePredictionConfidence]
  refine ⟨⟨le_max_left _ _, max_le (by norm_num) (min_le_left _ _)⟩, ?_, ?_⟩
  · intro hz
    rw [if_pos hz]
    norm_num
  · intro hz
    rw [if_neg hz]

/-- Witness for C6's amended statement at prediction 50 over the series
with demands 0 and 10. -/
theorem neural_confidence_clamped_formula_witness :
    (3/10 ≤ calculatePredictionConfidence 50 hist2
      ∧ calculatePredictionConfidence 50 hist2 ≤ 19/20)
    ∧ (ssStandardDeviation (hist2.map (fun d => d.demand)) = 0 →
        calculatePredictionConfidence 50 hist2 = 19/20)
    ∧ (ssStandardDeviation (hist2.map (fun d => d.demand)) ≠ 0 →
        calculatePredictionConfidence 50 hist2
          = max (3/10) (min (19/20)
              (1 - (|(50 : ℚ) - ssMean (hist2.map (fun d => d.demand))|
                    / ssStandardDeviation (hist2.map (fun d => d.demand)))
                  * (1/10)))) :=
  neural_confidence_clamped_formula 50 hist2 (by decide)

/-- C7: when the average daily demand of the forecast is 0, the stockout
risk evaluates to its 0 floor, and the optimizer still returns a numeric
result (no division by zero, no NaN) whose risk level is LOW. -/
theorem zero_avg_demand_low_risk (product : Product)
    (predictions : List ForecastPoint)
    (h : avgDailyDemand predictions = 0) :
    calculateStockoutRisk product.currentStock (avgDailyDemand predictions)
        (calculateDemandVariability predictions) = 0
    ∧ (optimizeStockLevels product predictions).map (fun r => r.riskLevel)
        = some RiskLevel.LOW := by
  have hrisk0 : calculateStockoutRisk product.currentStock 0
      (calculateDemandVariability predictions) = 0 := by
    simp [calculateStockoutRisk]
  constructor
  · rw [h]
    exact hrisk0
  · simp only [optimizeStockLevels, h, hrisk0]
    norm_num

set_option maxRecDepth 400000 in
/-- Witness for C7 on thirty all-zero forecast points for product p1. -/
theorem zero_avg_demand_low_risk_witness :
    calculateStockoutRisk prod1.currentStock (avgDailyDemand predsZ)
        (calculateDemandVariability predsZ) = 0
    ∧ (optimizeStockLevels prod1 predsZ).map (fun r => r.riskLevel)
        = some RiskLevel.LOW :=
  zero_avg_demand_low_risk prod1 predsZ (by with_unfolding_all decide)

/-- C9: on a constant-demand series the anomaly detector returns no
anomalies: the standard deviation is 0, so every z-score is taken as 0 and
never crosses the flagging threshold. -/
theorem constant_series_yields_no_anomalies (productId : String)
    (historicalData : List DemandObservation) (c : ℚ)
    (h : ∀ d ∈ historicalData, d.demand = c) :
    (detectAnomaliesFromSeries productId historicalData).anomalies = [] := by
  simp only [detectAnomaliesFromSeries]
  split
  · rfl
  · rename_i hlen
    have hne : historicalData.map (fun d => d.demand) ≠ [] := by
      intro hemp
      rw [hemp] at hlen
      simp at hlen
    have hall : ∀ x ∈ historicalData.map (fun d => d.demand), x = c := by
      intro x hx
      obtain ⟨d, hd, rfl⟩ := List.mem_map.mp hx
      exact h d hd
    have hstd : ssStandardDeviation (historicalData.map (fun d => d.demand)) = 0 :=
      ssStandardDeviation_const hall hne
    show List.filterMap _ _ = []
    refine List.filterMap_eq_nil_iff.mpr ?_
    intro i hi
    simp only [hstd, if_pos rfl]
    norm_num

set_option maxRecDepth 400000 in
/-- Witness for C9 on a constant series of fourteen days of demand 5. -/
theorem constant_series_yields_no_anomalies_witness :
    (detectAnomaliesFromSeries "p1" const14).anomalies = [] :=
  constant_series_yields_no_anomalies "p1" const14 5 (by with_unfolding_all decide)
